import Mathlib

/-!
Verification of the ParkingSensor control loop (`src/ObjectSensor.ino`).

Shallow embedding conventions:
* The C++ `double`/`float` values (echo durations, distances, conversion
  constants) are modelled as exact rationals `ℚ`; the numeric literals
  `0.0001` and `30.48` are the exact rationals the source writes.
* Hardware side effects (pin writes, delays, LCD and serial output, the
  `pulseIn` measurement) are modelled as an explicit event trace.
* The Arduino `delay(unsigned long ms)` primitive receives an unsigned
  integer; the implicit C++ conversion from `double` truncates, which is
  modelled by `ulongOfDouble` (every call site passes a non-negative value,
  so truncation toward zero coincides with the floor).
* `pulseIn(ECHO, HIGH)` reads the environment: the environment either
  supplies an echo pulse width in microseconds (`some t`) or times out
  (`none`), in which case `pulseIn` returns `0` as the Arduino API does.
-/

namespace ObjectSensor

/-- `#define SPEED_OF_SOUND 343` (m/s, dry air at 20°C). -/
def SPEED_OF_SOUND : ℚ := 343

/-- `int limit = 50;` — the threshold, in centimeters. -/
def limit : ℤ := 50

/-- `float calculateDistanceFoot(double timeElapsed)`:
`return (timeElapsed * (SPEED_OF_SOUND * 0.0001) / 30.48) / 2;` -/
def calculateDistanceFoot (timeElapsed : ℚ) : ℚ :=
  (timeElapsed * (SPEED_OF_SOUND * 0.0001) / 30.48) / 2

/-- `float calculateDistanceCM(double timeElapsed)`:
`return (timeElapsed * (SPEED_OF_SOUND * 0.0001)) / 2;` -/
def calculateDistanceCM (timeElapsed : ℚ) : ℚ :=
  (timeElapsed * (SPEED_OF_SOUND * 0.0001)) / 2

/-- The digital pins the sketch writes or reads: LED (3), TRIG (9), ECHO (8). -/
inductive Pin
  | LED
  | TRIG
  | ECHO
deriving DecidableEq

/-- Observable hardware effects of one run of the sketch, in program order. -/
inductive Event
  | digitalWrite (p : Pin) (v : Bool)
  | delayMs (ms : ℕ)
  | pulseInEcho (duration : ℚ)
  | lcdPrint (value : ℚ)
  | serialPrintln (value : ℚ)
  | lcdClear
deriving DecidableEq

/-- The implicit C++ conversion `double → unsigned long` at the `delay`
call sites: truncation toward zero, i.e. the floor on the non-negative
values the sketch passes. -/
def ulongOfDouble (d : ℚ) : ℕ := (Rat.floor d).toNat

/-- `void sendTrigPulse()`: TRIG low, delay(10), TRIG high, delay(10), TRIG low. -/
def sendTrigPulse : List Event :=
  [Event.digitalWrite Pin.TRIG false, Event.delayMs 10,
   Event.digitalWrite Pin.TRIG true, Event.delayMs 10,
   Event.digitalWrite Pin.TRIG false]

/-- Arduino `pulseIn(ECHO, HIGH)`: the pulse width supplied by the
environment, or `0` when the measurement times out (`none`). -/
def pulseIn (echoSignal : Option ℚ) : ℚ := echoSignal.getD 0

/-- `double getEchoTime()`: `return pulseIn(ECHO, HIGH);` -/
def getEchoTime (echoSignal : Option ℚ) : ℚ := pulseIn echoSignal

/-- `double getDistance()`: trigger pulse, echo timing, centimeter conversion. -/
def getDistance (echoSignal : Option ℚ) : ℚ :=
  calculateDistanceCM (getEchoTime echoSignal)

/-- The event trace of `getDistance()`: the trigger-pulse writes followed by
the `pulseIn` measurement. -/
def getDistanceEvents (echoSignal : Option ℚ) : List Event :=
  sendTrigPulse ++ [Event.pulseInEcho (getEchoTime echoSignal)]

/-- `void lcdDisplayMessage(String text)`: renders the distance (with the
`"cm"` suffix) on the LCD. The textual formatting is irrelevant to the
claims, so the event carries the numeric value rendered. -/
def lcdDisplayMessage (value : ℚ) : List Event := [Event.lcdPrint value]

/-- `void blinkLED(double distance)`: LED low, LED high, delay(distance),
LED low, delay(distance); `delay` receives the truncated value. -/
def blinkLED (distance : ℚ) : List Event :=
  [Event.digitalWrite Pin.LED false,
   Event.digitalWrite Pin.LED true,
   Event.delayMs (ulongOfDouble distance),
   Event.digitalWrite Pin.LED false,
   Event.delayMs (ulongOfDouble distance)]

/-- The threshold policy of `loop()`: `if (distance < limit) { blinkLED(distance); }`.
The `int` limit is promoted to `double` for the comparison. -/
def indicatorStep (lim : ℤ) (distance : ℚ) : List Event :=
  if distance < (lim : ℚ) then blinkLED distance else []

/-- Cross-cycle program state: the `limit` global and the level of the LED
line (the only output line whose level persists meaningfully between
cycles for the claims). -/
structure CycleState where
  limit : ℤ
  ledOn : Bool
deriving DecidableEq

/-- Effect of one event on the LED line level. -/
def applyEvent (led : Bool) (e : Event) : Bool :=
  match e with
  | Event.digitalWrite Pin.LED v => v
  | _ => led

/-- The event trace of one execution of `void loop()`, in program order:
measure, render to LCD, serial telemetry, conditional blink, `delay(200)`,
`lcd.clear()`. -/
def loopEvents (st : CycleState) (echoSignal : Option ℚ) : List Event :=
  getDistanceEvents echoSignal
  ++ lcdDisplayMessage (getDistance echoSignal)
  ++ [Event.serialPrintln (getDistance echoSignal)]
  ++ indicatorStep st.limit (getDistance echoSignal)
  ++ [Event.delayMs 200, Event.lcdClear]

/-- One execution of `void loop()`: the state after replaying the cycle's
events. `limit` is never written by the sketch. -/
def loopCycle (st : CycleState) (echoSignal : Option ℚ) : CycleState :=
  { limit := st.limit, ledOn := (loopEvents st echoSignal).foldl applyEvent st.ledOn }

/-- State after `setup()`: `limit` initialised to 50; the LED line has never
been driven high. -/
def initialState : CycleState := { limit := ObjectSensor.limit, ledOn := false }

/-- The Arduino runtime calls `loop()` forever: state after `n` cycles,
given the stream of echo measurements supplied by the environment. -/
def run (echos : ℕ → Option ℚ) : ℕ → CycleState
  | 0 => initialState
  | n + 1 => loopCycle (run echos n) (echos n)

/-- Total milliseconds spent blocked in `delay` calls over a trace. -/
def totalDelayMs (es : List Event) : ℕ :=
  es.foldl (fun acc e => match e with | Event.delayMs m => acc + m | _ => acc) 0

/-- The writes to the LED line occurring in a trace. -/
def ledWrites (es : List Event) : List Event :=
  es.filter (fun e => match e with | Event.digitalWrite Pin.LED _ => true | _ => false)

/-- The rational 343/20 = 17.15 given by an explicit normalised
representation, used to exercise the truncation result on a concrete
fractional distance. -/
def sampleFractionalDistance : ℚ := Rat.mk' 343 20 (by decide) (by decide)

example : calculateDistanceCM 1000 = 1715 / 100 := by
  norm_num [calculateDistanceCM, SPEED_OF_SOUND]
example : getDistance (some 6000) = 1029 / 10 := by
  norm_num [getDistance, getEchoTime, pulseIn, calculateDistanceCM, SPEED_OF_SOUND]
example : ulongOfDouble (1715 / 100) = 17 := by
  unfold ulongOfDouble
  rw [show Rat.floor (1715 / 100 : ℚ) = 17 by rw [Rat.floor_def']; norm_num]
  rfl
example : Rat.floor sampleFractionalDistance = 17 := by decide

lemma speedFactor_pos : (0 : ℚ) < SPEED_OF_SOUND * 0.0001 := by
  norm_num [SPEED_OF_SOUND]

lemma initialState_limit_cast : ((initialState.limit : ℤ) : ℚ) = 50 := by
  norm_num [initialState, ObjectSensor.limit]

lemma blinkLED_ne_nil (d : ℚ) : blinkLED d ≠ [] := by simp [blinkLED]

lemma getDistance_1000 : getDistance (some 1000) = 1715 / 100 := by
  norm_num [getDistance, getEchoTime, pulseIn, calculateDistanceCM, SPEED_OF_SOUND]

lemma ulongOfDouble_1715_100 : ulongOfDouble (1715 / 100) = 17 := by
  unfold ulongOfDouble
  rw [show Rat.floor (1715 / 100 : ℚ) = 17 by rw [Rat.floor_def']; norm_num]
  rfl

/-- C1: for every non-negative echo duration `T` (µs), the centimeter
conversion returns `(T * 0.0343) / 2` and the feet conversion returns
`(T * 0.0343 / 30.48) / 2`; both conversions map a zero duration to zero. -/
theorem C1_conversion_formulas (T : ℚ) (h : 0 ≤ T) :
    calculateDistanceCM T = (T * 0.0343) / 2 ∧
    calculateDistanceFoot T = (T * 0.0343 / 30.48) / 2 ∧
    calculateDistanceCM 0 = 0 ∧ calculateDistanceFoot 0 = 0 := by
  refine ⟨?_, ?_, ?_, ?_⟩ <;>
    simp only [calculateDistanceCM, calculateDistanceFoot, SPEED_OF_SOUND] <;>
    norm_num

/-- Witness for C1 at the concrete duration `T = 100`. -/
theorem C1_conversion_formulas_witness :
    (0 : ℚ) ≤ 100 ∧
    (calculateDistanceCM 100 = (100 * 0.0343) / 2 ∧
     calculateDistanceFoot 100 = (100 * 0.0343 / 30.48) / 2 ∧
     calculateDistanceCM 0 = 0 ∧ calculateDistanceFoot 0 = 0) :=
  ⟨by decide, C1_conversion_formulas 100 (by decide)⟩

/-- C2: in every control-loop cycle the indicator blink step runs if and
only if the measured distance is strictly below the 50 cm threshold; a
distance of exactly 50 does not trigger it, 49.999 does, and the measured
distance itself is the argument passed to `blinkLED`. -/
theorem C2_threshold_strict (echoSignal : Option ℚ) :
    (indicatorStep initialState.limit (getDistance echoSignal) =
        blinkLED (getDistance echoSignal) ↔ getDistance echoSignal < 50) ∧
    (indicatorStep initialState.limit (getDistance echoSignal) = [] ↔
        ¬ getDistance echoSignal < 50) ∧
    loopEvents initialState echoSignal =
      getDistanceEvents echoSignal
        ++ lcdDisplayMessage (getDistance echoSignal)
        ++ [Event.serialPrintln (getDistance echoSignal)]
        ++ indicatorStep initialState.limit (getDistance echoSignal)
        ++ [Event.delayMs 200, Event.lcdClear] ∧
    indicatorStep initialState.limit 50 = [] ∧
    indicatorStep initialState.limit (49999 / 1000) =
      blinkLED (49999 / 1000) := by
  refine ⟨?_, ?_, rfl, ?_, ?_⟩
  · unfold indicatorStep
    rw [initialState_limit_cast]
    by_cases hd : getDistance echoSignal < 50
    · simp [hd]
    · simp [hd, Ne.symm (blinkLED_ne_nil (getDistance echoSignal))]
  · unfold indicatorStep
    rw [initialState_limit_cast]
    by_cases hd : getDistance echoSignal < 50
    · simp [hd, blinkLED_ne_nil (getDistance echoSignal)]
    · simp [hd]
  · unfold indicatorStep
    rw [initialState_limit_cast, if_neg (lt_irrefl (50 : ℚ))]
  · unfold indicatorStep
    rw [initialState_limit_cast, if_pos (by norm_num : (49999 / 1000 : ℚ) < 50)]

/-- C3 counterexample: for an echo of 1000 µs the distance is 17.15 cm and
the blink is invoked, but the half-period handed to the delay primitive is
17 ms, not 17.15 ms, because the millisecond argument is truncated. -/
theorem C3_counterexample :
    getDistance (some 1000) = 1715 / 100 ∧
    blinkLED (getDistance (some 1000)) =
      [Event.digitalWrite Pin.LED false, Event.digitalWrite Pin.LED true,
       Event.delayMs 17, Event.digitalWrite Pin.LED false, Event.delayMs 17] ∧
    (17 : ℚ) ≠ 1715 / 100 := by
  refine ⟨getDistance_1000, ?_, by norm_num⟩
  rw [getDistance_1000]
  unfold blinkLED
  rw [ulongOfDouble_1715_100]

/-- C3 amended: for an echo of 1000 µs the computed distance is 17.15 cm,
the indicator is triggered (17.15 < 50), and the blink half-period actually
delayed is 17 ms (17.15 truncated by the millisecond delay primitive). -/
theorem C3_amended_scenario :
    getDistance (some 1000) = 1715 / 100 ∧
    getDistance (some 1000) < 50 ∧
    indicatorStep initialState.limit (getDistance (some 1000)) =
      blinkLED (getDistance (some 1000)) ∧
    ulongOfDouble (getDistance (some 1000)) = 17 := by
  have hlt : getDistance (some 1000) < 50 := by
    rw [getDistance_1000]; norm_num
  refine ⟨getDistance_1000, hlt, ?_, ?_⟩
  · unfold indicatorStep
    rw [initialState_limit_cast, if_pos hlt]
  · rw [getDistance_1000]
    exact ulongOfDouble_1715_100

/-- C4: an absent echo (`none`, the measurement timeout) yields a zero
duration — indistinguishable from a genuine zero-width echo, not a distinct
error value — hence a zero distance; in that cycle the indicator is
triggered (0 < 50) with a blink half-period of 0 ms, and the run always
continues to the next cycle. -/
theorem C4_no_echo_is_zero :
    getEchoTime none = 0 ∧
    getEchoTime none = getEchoTime (some 0) ∧
    getDistance none = 0 ∧
    indicatorStep initialState.limit (getDistance none) =
      blinkLED (getDistance none) ∧
    ulongOfDouble (getDistance none) = 0 ∧
    (∀ (echos : ℕ → Option ℚ) (n : ℕ),
      run echos (n + 1) = loopCycle (run echos n) (echos n)) := by
  have hz : getDistance none = 0 := by
    norm_num [getDistance, getEchoTime, pulseIn, calculateDistanceCM, SPEED_OF_SOUND]
  refine ⟨rfl, rfl, hz, ?_, ?_, fun _ _ => rfl⟩
  · unfold indicatorStep
    rw [initialState_limit_cast, if_pos (by rw [hz]; norm_num)]
  · rw [hz]; decide

lemma loopCycle_ledOn_false (st : CycleState) (echoSignal : Option ℚ)
    (h : st.ledOn = false) : (loopCycle st echoSignal).ledOn = false := by
  show (loopEvents st echoSignal).foldl applyEvent st.ledOn = false
  rw [h]
  unfold loopEvents indicatorStep
  by_cases hd : getDistance echoSignal < (st.limit : ℚ)
  · rw [if_pos hd]
    simp [getDistanceEvents, sendTrigPulse, lcdDisplayMessage, blinkLED,
      List.foldl_append, applyEvent]
  · rw [if_neg hd]
    simp [getDistanceEvents, sendTrigPulse, lcdDisplayMessage,
      List.foldl_append, applyEvent]

/-- C5: every cycle of `loop()` performs, in this order: the distance
measurement (trigger pulse, echo timing), LCD render, serial telemetry,
the conditional indicator blink, the fixed 200 ms inter-cycle delay, and
the display clear; and the run continues with a further cycle after every
cycle, so no terminal state is reachable. -/
theorem C5_cycle_order :
    (∀ (st : CycleState) (echoSignal : Option ℚ),
      loopEvents st echoSignal =
        (sendTrigPulse ++ [Event.pulseInEcho (getEchoTime echoSignal)])
        ++ ([Event.lcdPrint (getDistance echoSignal)]
        ++ ([Event.serialPrintln (getDistance echoSignal)]
        ++ (indicatorStep st.limit (getDistance echoSignal)
        ++ [Event.delayMs 200, Event.lcdClear])))) ∧
    (∀ (echos : ℕ → Option ℚ) (n : ℕ),
      run echos (n + 1) = loopCycle (run echos n) (echos n)) := by
  refine ⟨fun st echoSignal => ?_, fun _ _ => rfl⟩
  simp [loopEvents, getDistanceEvents, lcdDisplayMessage, List.append_assoc]

/-- C6 counterexample: a blink with duration 1/2 delays for 0 ms in each
phase, blocking for a total of 0 ms, not the 2 × (1/2) = 1 ms the claim
states for arbitrary durations. -/
theorem C6_counterexample :
    blinkLED (1 / 2) =
      [Event.digitalWrite Pin.LED false, Event.digitalWrite Pin.LED true,
       Event.delayMs 0, Event.digitalWrite Pin.LED false, Event.delayMs 0] ∧
    totalDelayMs (blinkLED (1 / 2)) = 0 ∧
    ((totalDelayMs (blinkLED (1 / 2)) : ℚ) ≠ 2 * (1 / 2)) := by
  have hu : ulongOfDouble (1 / 2) = 0 := by
    unfold ulongOfDouble
    rw [show Rat.floor (1 / 2 : ℚ) = 0 by rw [Rat.floor_def']; norm_num]
    rfl
  have hb : blinkLED (1 / 2) =
      [Event.digitalWrite Pin.LED false, Event.digitalWrite Pin.LED true,
       Event.delayMs 0, Event.digitalWrite Pin.LED false, Event.delayMs 0] := by
    unfold blinkLED; rw [hu]
  refine ⟨hb, ?_, ?_⟩ <;> rw [hb]
  · rfl
  · norm_num [totalDelayMs]

/-- C6 amended: a call to `blinkLED` with duration `d` drives the LED line
through low, high, hold for `⌊d⌋` ms, low, hold for `⌊d⌋` ms, and blocks
for a total of `2 × ⌊d⌋` ms — equal to `2 × d` exactly when `d` is a
non-negative integer, since the millisecond delay argument is truncated. -/
theorem C6_amended_blink (d : ℚ) :
    blinkLED d =
      [Event.digitalWrite Pin.LED false, Event.digitalWrite Pin.LED true,
       Event.delayMs (ulongOfDouble d), Event.digitalWrite Pin.LED false,
       Event.delayMs (ulongOfDouble d)] ∧
    totalDelayMs (blinkLED d) = 2 * ulongOfDouble d ∧
    (∀ n : ℕ, ulongOfDouble (n : ℚ) = n) := by
  refine ⟨rfl, ?_, fun n => ?_⟩
  · simp [blinkLED, totalDelayMs]
    omega
  · unfold ulongOfDouble
    rw [show Rat.floor ((n : ℕ) : ℚ) = (n : ℤ) by
      unfold Rat.floor
      rw [if_pos (Rat.den_natCast n)]
      exact Rat.num_natCast n]
    exact Int.toNat_natCast n

/-- C7: the centimeter conversion is strictly monotonic on non-negative
echo durations. -/
theorem C7_strict_monotone (T1 T2 : ℚ) (h0 : 0 ≤ T1) (h : T1 < T2) :
    calculateDistanceCM T1 < calculateDistanceCM T2 := by
  unfold calculateDistanceCM
  rw [div_lt_div_iff_of_pos_right (by norm_num : (0 : ℚ) < 2)]
  exact mul_lt_mul_of_pos_right h speedFactor_pos

/-- Witness for C7 at the concrete durations 0 and 1. -/
theorem C7_strict_monotone_witness :
    (0 : ℚ) ≤ 0 ∧ (0 : ℚ) < 1 ∧ calculateDistanceCM 0 < calculateDistanceCM 1 :=
  ⟨by decide, by decide, C7_strict_monotone 0 1 (by decide) (by decide)⟩

/-- C8: the threshold is the constant 50 (cm); no cycle of the loop ever
modifies it, so it holds after any number of cycles from startup. -/
theorem C8_limit_immutable :
    ObjectSensor.limit = 50 ∧
    (∀ (st : CycleState) (echoSignal : Option ℚ),
      (loopCycle st echoSignal).limit = st.limit) ∧
    (∀ (echos : ℕ → Option ℚ) (n : ℕ), (run echos n).limit = 50) := by
  refine ⟨rfl, fun _ _ => rfl, fun echos n => ?_⟩
  induction n with
  | zero => rfl
  | succ n ih => simpa [run, loopCycle] using ih

/-- C9: the blink half-period handed to the millisecond delay primitive is
the integer truncation of the double distance (the Arduino `delay`
parameter is an unsigned integer), so for every non-integer distance `d`
the actual half-period is `⌊d⌋` ms, different from `d` — e.g. 17 ms when
the distance is 17.15 cm. -/
theorem C9_truncated_half_period (d : ℚ) (h0 : 0 ≤ d) (hden : d.den ≠ 1) :
    blinkLED d =
      [Event.digitalWrite Pin.LED false, Event.digitalWrite Pin.LED true,
       Event.delayMs (ulongOfDouble d), Event.digitalWrite Pin.LED false,
       Event.delayMs (ulongOfDouble d)] ∧
    (ulongOfDouble d : ℤ) = Rat.floor d ∧
    (ulongOfDouble d : ℚ) ≠ d ∧
    ulongOfDouble (1715 / 100) = 17 := by
  have hfl : (0 : ℤ) ≤ Rat.floor d :=
    Rat.le_floor.mpr (by exact_mod_cast h0)
  refine ⟨rfl, Int.toNat_of_nonneg hfl, ?_, ulongOfDouble_1715_100⟩
  intro heq
  exact hden (by rw [← heq]; exact Rat.den_natCast _)

/-- Witness for C9 at the concrete fractional distance 343/20 = 17.15. -/
theorem C9_truncated_half_period_witness :
    (0 : ℚ) ≤ sampleFractionalDistance ∧ sampleFractionalDistance.den ≠ 1 ∧
    (ulongOfDouble sampleFractionalDistance : ℚ) ≠ sampleFractionalDistance :=
  ⟨by decide, by decide,
    (C9_truncated_half_period sampleFractionalDistance (by decide)
      (by decide)).2.2.1⟩

/-- C10: every blink leaves the LED line low when it returns; in every
cycle, either the distance is below the threshold or the cycle contains no
write to the LED line at all; hence after every completed cycle from
startup the indicator is off. -/
theorem C10_led_off_between_cycles :
    (∀ (d : ℚ) (b : Bool), (blinkLED d).foldl applyEvent b = false) ∧
    (∀ (st : CycleState) (echoSignal : Option ℚ),
      getDistance echoSignal < (st.limit : ℚ) ∨
      ledWrites (loopEvents st echoSignal) = []) ∧
    (∀ (echos : ℕ → Option ℚ) (n : ℕ), (run echos n).ledOn = false) := by
  refine ⟨fun d b => rfl, fun st echoSignal => ?_, fun echos n => ?_⟩
  · by_cases hd : getDistance echoSignal < (st.limit : ℚ)
    · exact Or.inl hd
    · refine Or.inr ?_
      unfold loopEvents indicatorStep
      rw [if_neg hd]
      simp [ledWrites, getDistanceEvents, sendTrigPulse, lcdDisplayMessage,
        List.filter_append]
  · induction n with
    | zero => rfl
    | succ n ih => exact loopCycle_ledOn_false _ _ ih

end ObjectSensor
